import Mathlib

/-!
Verification of the pystatlab resampling/permutation inference engine
(`pystatlab/ab_testing.py` and `pystatlab/stat_analysis.py`) against its
natural-language specification.

The Python code is shallowly embedded over exact rationals (`ℚ`).  Floating
point numbers are modelled as rationals; external randomness (numpy's seeded
global generator, `scipy.stats` beta/t draws) is modelled as explicit
deterministic stream parameters, so that every run of a routine is a pure
function of (seed/stream, inputs); external real-valued library functions
that have no exact rational counterpart (`scipy.stats.norm.cdf`,
`scipy.stats.norm.ppf`, the float power `x ** 0.5` / `x ** 1.5`) are passed
in as function parameters of the embedding.  Python exceptions are modelled
with `Except String`.
-/

/-- `np.mean` on a list of rationals: sum divided by length.  (For the empty
list numpy returns NaN; in `ℚ` the expression `0 / 0` evaluates to `0`.) -/
def npMean (l : List ℚ) : ℚ := l.sum / (l.length : ℚ)

/-- `np.quantile(data, q)` with the default linear interpolation: sort the
data, take position `q * (n - 1)` and interpolate linearly between the two
neighbouring order statistics. -/
def npQuantile (data : List ℚ) (q : ℚ) : ℚ :=
  let s := data.insertionSort (· ≤ ·)
  let pos : ℚ := q * ((s.length : ℚ) - 1)
  let lo : ℕ := (Int.floor pos).toNat
  let frac : ℚ := pos - (Int.floor pos : ℚ)
  let vlo := s.getD lo 0
  let vhi := s.getD (lo + 1) vlo
  vlo + frac * (vhi - vlo)

/-- `ParentTestInterface._compute_uplift(before, after) = (after - before) / before`. -/
def compute_uplift (before after : ℚ) : ℚ := (after - before) / before

/-- `ParentTestInterface._compute_ci(data) = np.quantile(data, [left_quant, right_quant])`. -/
def compute_ci (data : List ℚ) (left_quant right_quant : ℚ) : ℚ × ℚ :=
  (npQuantile data left_quant, npQuantile data right_quant)

/-- `ParentTestInterface._get_alternative_value`: two-sided folding of a
one-sided probability, `min(2p, 2 - 2p)` when `two_sided` else `p`. -/
def get_alternative_value (p : ℚ) (two_sided : Bool) : ℚ :=
  if two_sided then min (2 * p) (2 - 2 * p) else p

/-- The properties claimed of every add-one-smoothed resampling p-value with
`n` trials: `p = (count + 1)/(n + 1)` for some `count ≤ n`, hence
`p ∈ [1/(n+1), 1]` and `p ≠ 0`, and the two-sided folded value
`min(2p, 2 - 2p)` lies in `[0, 1]`. -/
def pvalueProps (n : ℕ) (p : ℚ) : Prop :=
  (∃ c : ℕ, c ≤ n ∧ p = ((c : ℚ) + 1) / ((n : ℚ) + 1)) ∧
  1 / ((n : ℚ) + 1) ≤ p ∧ p ≤ 1 ∧ p ≠ 0 ∧
  0 ≤ min (2 * p) (2 - 2 * p) ∧ min (2 * p) (2 - 2 * p) ≤ 1

/-- Partial-correctness wrapper: the property holds of the result whenever
the fallible computation succeeds. -/
def okImplies {α : Type _} (e : Except String α) (P : α → Prop) : Prop :=
  match e with
  | Except.ok a => P a
  | Except.error _ => True

/-- Partial-correctness wrapper over a pair of fallible computations. -/
def okImplies2 {α β : Type _} (e₁ : Except String α) (e₂ : Except String β)
    (P : α → β → Prop) : Prop :=
  match e₁, e₂ with
  | Except.ok a, Except.ok b => P a b
  | _, _ => True

@[simp] lemma okImplies_ok {α : Type _} (a : α) (P : α → Prop) :
    okImplies (Except.ok a) P = P a := rfl

@[simp] lemma okImplies_error {α : Type _} (e : String) (P : α → Prop) :
    okImplies (Except.error e) P = True := rfl

@[simp] lemma okImplies2_ok {α β : Type _} (a : α) (b : β) (P : α → β → Prop) :
    okImplies2 (Except.ok a) (Except.ok b) P = P a b := rfl

@[simp] lemma okImplies2_error_left {α β : Type _} (e : String)
    (e₂ : Except String β) (P : α → β → Prop) :
    okImplies2 (Except.error e) e₂ P = True := by
  cases e₂ <;> rfl

lemma pvalueProps_of (c n : ℕ) (h : c ≤ n) :
    pvalueProps n (((c : ℚ) + 1) / ((n : ℚ) + 1)) := by
  have hn : (0 : ℚ) < (n : ℚ) + 1 := by positivity
  have hc1 : ((c : ℚ) + 1) ≤ (n : ℚ) + 1 := by
    have : (c : ℚ) ≤ (n : ℚ) := by exact_mod_cast h
    linarith
  have hp1 : ((c : ℚ) + 1) / ((n : ℚ) + 1) ≤ 1 := by
    rw [div_le_one hn]; exact hc1
  have hple : 1 / ((n : ℚ) + 1) ≤ ((c : ℚ) + 1) / ((n : ℚ) + 1) := by
    have hc0 : (0 : ℚ) ≤ (c : ℚ) := Nat.cast_nonneg c
    exact (div_le_div_iff_of_pos_right hn).mpr (by linarith)
  have hppos : (0 : ℚ) < ((c : ℚ) + 1) / ((n : ℚ) + 1) :=
    div_pos (by positivity) hn
  refine ⟨⟨c, h, rfl⟩, hple, hp1, ne_of_gt hppos, ?_, ?_⟩
  · exact le_min (by linarith) (by linarith)
  · rcases le_total (((c : ℚ) + 1) / ((n : ℚ) + 1)) (1 / 2) with hh | hh
    · exact le_trans (min_le_left _ _) (by linarith)
    · exact le_trans (min_le_right _ _) (by linarith)

/-!
### Attribute machinery of `ParentTestInterface` (`ab_testing.py` lines 18-53)

Every attribute write on a session object goes through
`ParentTestInterface.__setattr__`, which (a) recomputes the confidence
bounds whenever `confidence_level` is written, and (b) mirrors writes into
the `init_items` snapshot (lines 43-46).  Step (b) evaluates
`key in self.init_items` unconditionally for every key other than
`progress_bar`; Python raises `AttributeError` when the `init_items`
attribute does not exist yet.  The object state is modelled as the instance
`__dict__` (scalar attributes) together with the `init_items` snapshot,
which is `none` while unset.
-/

inductive PyVal where
  | num (q : ℚ)
  | bool (b : Bool)
deriving DecidableEq

def dictGet (d : List (String × PyVal)) (k : String) : Option PyVal :=
  match d.find? (fun kv => kv.1 == k) with
  | some kv => some kv.2
  | none => none

def dictSet (d : List (String × PyVal)) (k : String) (v : PyVal) :
    List (String × PyVal) :=
  if (d.find? (fun kv => kv.1 == k)).isSome then
    d.map (fun kv => if kv.1 == k then (k, v) else kv)
  else d ++ [(k, v)]

structure PyState where
  attrs : List (String × PyVal)
  initItems : Option (List (String × PyVal))
deriving DecidableEq

/-- `super().__setattr__(key, value)`: plain write into `__dict__`. -/
def setAttrVal (s : PyState) (key : String) (v : PyVal) : PyState :=
  { s with attrs := dictSet s.attrs key v }

/-- Lines 43-46 of `__setattr__`: the `init_items` mirror.  For
`progress_bar` the guard reads `self.init_items.get('n_jobs')`; for every
other key the `elif` reads `key in self.init_items`.  Either read raises
`AttributeError` while `init_items` is unset. -/
def initItemsMirror (s : PyState) (key : String) (value : PyVal) :
    Except String PyState :=
  if key = "progress_bar" then
    match s.initItems with
    | none => Except.error "AttributeError: init_items"
    | some ii =>
      if dictGet ii "n_jobs" ≠ some (PyVal.num 1) then
        Except.ok { s with initItems := some (dictSet ii key (PyVal.bool false)) }
      else if (dictGet ii key).isSome ∧ dictGet ii key ≠ some value then
        Except.ok { s with initItems := some (dictSet ii key value) }
      else Except.ok s
  else
    match s.initItems with
    | none => Except.error "AttributeError: init_items"
    | some ii =>
      if (dictGet ii key).isSome ∧ dictGet ii key ≠ some value then
        Except.ok { s with initItems := some (dictSet ii key value) }
      else Except.ok s

/-- `__setattr__` for keys other than `confidence_level` (lines 38-46). -/
def pySetattrPlain (s : PyState) (key : String) (value : PyVal) :
    Except String PyState :=
  let s1 :=
    if key = "progress_bar" ∧ dictGet s.attrs "n_jobs" ≠ some (PyVal.num 1) then
      setAttrVal s key (PyVal.bool false)
    else
      setAttrVal s key value
  initItemsMirror s1 key value

/-- `ParentTestInterface._compute_confidence_bounds` (lines 48-53):
`alpha = 1 - confidence_level`, then the two quantile writes, each going
through `__setattr__` again. -/
def compute_confidence_bounds (s : PyState) : Except String PyState :=
  match dictGet s.attrs "confidence_level" with
  | some (PyVal.num c) =>
    let alpha := 1 - c
    (pySetattrPlain s "left_quant" (PyVal.num (alpha / 2))).bind
      (fun s1 => pySetattrPlain s1 "right_quant" (PyVal.num (1 - alpha / 2)))
  | _ => Except.error "AttributeError: confidence_level"

/-- `ParentTestInterface.__setattr__` (lines 23-46). -/
def pySetattr (s : PyState) (key : String) (value : PyVal) :
    Except String PyState :=
  if key = "confidence_level" then
    (compute_confidence_bounds (setAttrVal s key value)).bind
      (fun s2 => initItemsMirror s2 key value)
  else pySetattrPlain s key value

/-- `ParentTestInterface.__init__(confidence_level)` (lines 18-21):
line 19 writes `confidence_level` (triggering the bound recomputation),
line 20 snapshots `__dict__` into `init_items` (the mirror block finds no
`init_items` key inside the fresh copy, so the snapshot stays as written),
line 21 recomputes the bounds once more. -/
def parentTestInterfaceInit (confidence_level : ℚ) : Except String PyState :=
  let s0 : PyState := ⟨[], none⟩
  (pySetattr s0 "confidence_level" (PyVal.num confidence_level)).bind (fun s1 =>
    let s2 : PyState := { s1 with initItems := some s1.attrs }
    compute_confidence_bounds s2)

/-!
### `BayesBeta` (`ab_testing.py` lines 239-473)

`np.random.beta(a, b, size=n)` after `np.random.seed(random_state)` is an
external draw; it is modelled by a stream parameter
`betaStream : ℚ → ℚ → ℕ → ℚ` giving the draw at each index for the given
`(a, b)` parameters, so the produced array is
`(List.range n).map (betaStream a b)`.
-/

structure BayesState where
  n_resamples : ℕ
  cr_control : ℚ
  cr_test : ℚ
  uplift : ℚ
  beta_control : List ℚ
  beta_test : List ℚ
  uplift_dist : List ℚ
  uplift_ci : ℚ × ℚ

structure BayesComputeResult where
  pvalue : ℚ
  uplift : ℚ
  uplift_ci : ℚ × ℚ
  control_loss : ℚ
  test_loss : ℚ

namespace BayesBeta

/-- `BayesBeta.resample(nobs, counts, prior)` (lines 297-357): validates the
two-element `nobs`/`counts`, normalises the prior (empty → all ones, two
elements → repeated twice, one/three/more-than-four elements → error),
draws the two posterior vectors and derives the uplift distribution and its
CI.  (`isinstance(prior, (list, tuple))` always holds in the typed model.) -/
def resample (betaStream : ℚ → ℚ → ℕ → ℚ) (n_resamples : ℕ)
    (left_quant right_quant : ℚ) (nobs counts prior : List ℚ) :
    Except String BayesState :=
  if nobs.length ≠ 2 ∨ counts.length ≠ 2 then
    Except.error "You must have 2 elements in each list: nobs and counts."
  else
    let control_a := nobs.getD 0 0
    let test_a := nobs.getD 1 0
    let control_total := counts.getD 0 0
    let test_total := counts.getD 1 0
    let control_b := control_total - control_a
    let test_b := test_total - test_a
    let prChecked : Except String (List ℚ) :=
      if prior = [] then Except.ok [1, 1, 1, 1]
      else if prior.length = 2 then Except.ok (prior ++ prior)
      else if prior.length = 1 ∨ prior.length = 3 ∨ 4 < prior.length then
        Except.error "You can pass only two or four values for prior."
      else Except.ok prior
    prChecked.bind (fun pr =>
      let cr_control := control_a / control_total
      let cr_test := test_a / test_total
      let beta_control := (List.range n_resamples).map
        (betaStream (control_a + pr.getD 0 0) (control_b + pr.getD 1 0))
      let beta_test := (List.range n_resamples).map
        (betaStream (test_a + pr.getD 2 0) (test_b + pr.getD 3 0))
      let uplift_dist := List.zipWith compute_uplift beta_control beta_test
      Except.ok
        { n_resamples := n_resamples
          cr_control := cr_control
          cr_test := cr_test
          uplift := compute_uplift cr_control cr_test
          beta_control := beta_control
          beta_test := beta_test
          uplift_dist := uplift_dist
          uplift_ci := compute_ci uplift_dist left_quant right_quant })

/-- `BayesBeta.compute(two_sided)` (lines 359-421):
`p = (np.sum(beta_test > beta_control) + 1) / (n_resamples + 1)`, folded by
`_get_alternative_value`; `control_loss = mean(np.maximum(uplift_dist, 0))`
and `test_loss = mean(np.maximum(_compute_uplift(beta_test, beta_control), 0))`. -/
def compute (s : BayesState) (two_sided : Bool) : BayesComputeResult :=
  let p := ((((List.zip s.beta_test s.beta_control).filter
      (fun d => decide (d.2 < d.1))).length : ℚ) + 1) / ((s.n_resamples : ℚ) + 1)
  { pvalue := get_alternative_value p two_sided
    uplift := s.uplift
    uplift_ci := s.uplift_ci
    control_loss := npMean (s.uplift_dist.map (fun u => max u 0))
    test_loss := npMean
      ((List.zipWith compute_uplift s.beta_test s.beta_control).map
        (fun u => max u 0)) }

end BayesBeta

/-- The `test_loss` formula exactly as the specification words it
(refinement comparison for the loss claim): the expected loss for shipping,
`mean(max(-uplift, 0))` over the uplift distribution of the session. -/
def bayesTestLossClaimed (s : BayesState) : ℚ :=
  npMean (s.uplift_dist.map (fun u => max (-u) 0))

/-!
### `Bootstrap` (`ab_testing.py` lines 476-698)

`seed.integers(low=0, high=h, size=sz)` inside each trial of the
`ParallelResampler` is modelled by a stream parameter
`integers : ℕ → ℕ → ℕ → ℕ → List ℕ` mapping (trial, call number within the
trial, high, size) to the drawn index list.  The engine contract keeps the
drawn indices inside `[0, high)`; numpy fancy indexing with such indices is
total, so selection is modelled with `List.getD`.
-/

structure BootResult where
  uplift : ℚ
  resample_data : List (ℚ × ℚ)
  diffs : List ℚ
  a_ci : ℚ × ℚ
  b_ci : ℚ × ℚ
  diff_ci : ℚ × ℚ
  uplift_dist : List ℚ
  uplift_ci : ℚ × ℚ

structure BootComputeResult where
  pvalue : ℚ
  uplift : ℚ
  uplift_ci : ℚ × ℚ
  control_ci : ℚ × ℚ
  test_ci : ℚ × ℚ
  diff_ci : ℚ × ℚ

namespace Bootstrap

/-- The fixed ratio statistic installed in the four-sample branch:
`np.sum(sample[:, 0]) / np.sum(sample[:, 1])` over joint rows. -/
def ratio_func (sample : List (ℚ × ℚ)) : ℚ :=
  (sample.map Prod.fst).sum / (sample.map Prod.snd).sum

/-- `_generate_indices(seed, size_a, size_b, ind, match_max_length)`
(lines 563-573): the per-arm draw sizes, one index draw for arm A, reused
for arm B when `ind` is false. -/
def generate_indices (integers : ℕ → ℕ → ℕ → List ℕ) (size_a size_b : ℕ)
    (ind match_max_length : Bool) : List ℕ × List ℕ :=
  let sizes :=
    if match_max_length then (max size_a size_b, max size_a size_b)
    else (size_a, size_b)
  let a := integers 0 size_a sizes.1
  if ind then (a, integers 1 size_b sizes.2) else (a, a)

/-- Lines 618-623: derived outputs of `resample` from the n×2 trial array. -/
def finalize (data : List (ℚ × ℚ)) (uplift left_quant right_quant : ℚ) :
    BootResult :=
  let diffs := data.map (fun d => d.2 - d.1)
  let uplift_dist := data.map (fun d => compute_uplift d.1 d.2)
  { uplift := uplift
    resample_data := data
    diffs := diffs
    a_ci := compute_ci (data.map Prod.fst) left_quant right_quant
    b_ci := compute_ci (data.map Prod.snd) left_quant right_quant
    diff_ci := compute_ci diffs left_quant right_quant
    uplift_dist := uplift_dist
    uplift_ci := compute_ci uplift_dist left_quant right_quant }

/-- `Bootstrap.resample(*samples, match_max_length, ind)` (lines 529-628):
two-sample branch (continuous metric, statistic `func`), four-sample branch
(ratio metric, statistic fixed to `ratio_func` over joint rows), arity
error otherwise.  `_rel_size_comparison` raises for paired resampling with
unequal arm lengths; the four-sample branch first checks the
numerator/denominator lengths within each arm. -/
def resample (func : List ℚ → ℚ) (n_resamples : ℕ)
    (integers : ℕ → ℕ → ℕ → ℕ → List ℕ) (samples : List (List ℚ))
    (match_max_length ind : Bool) (left_quant right_quant : ℚ) :
    Except String BootResult :=
  if samples.length = 2 then
    let sample_a := samples.getD 0 []
    let sample_b := samples.getD 1 []
    let size_a := sample_a.length
    let size_b := sample_b.length
    if ¬ind ∧ size_a ≠ size_b then
      Except.error "Relative samples must be the same sample size"
    else
      let uplift := compute_uplift (func sample_a) (func sample_b)
      let data := (List.range n_resamples).map (fun t =>
        let ids := generate_indices (integers t) size_a size_b ind match_max_length
        (func (ids.1.map (fun i => sample_a.getD i 0)),
         func (ids.2.map (fun i => sample_b.getD i 0))))
      Except.ok (finalize data uplift left_quant right_quant)
  else if samples.length = 4 then
    if (samples.getD 0 []).length ≠ (samples.getD 1 []).length ∨
        (samples.getD 2 []).length ≠ (samples.getD 3 []).length then
      Except.error "Numerator and denominator must be the same length for ratio metrics."
    else
      let sample_a := List.zip (samples.getD 0 []) (samples.getD 1 [])
      let sample_b := List.zip (samples.getD 2 []) (samples.getD 3 [])
      let size_a := (samples.getD 0 []).length
      let size_b := (samples.getD 2 []).length
      if ¬ind ∧ size_a ≠ size_b then
        Except.error "Relative samples must be the same sample size"
      else
        let uplift := compute_uplift (ratio_func sample_a) (ratio_func sample_b)
        let data := (List.range n_resamples).map (fun t =>
          let ids := generate_indices (integers t) size_a size_b ind match_max_length
          (ratio_func (ids.1.map (fun i => sample_a.getD i (0, 0))),
           ratio_func (ids.2.map (fun i => sample_b.getD i (0, 0)))))
        Except.ok (finalize data uplift left_quant right_quant)
  else
    Except.error "You must pass exactly two samples for continuous metrics, or four samples for ratio metrics: numerator and denominator for control, then for treatment groups."

/-- `Bootstrap.compute(two_sided)` (lines 630-663):
`p = (np.sum(col1 > col0) + 1) / (n_resamples + 1)`, folded two-sided by
default, plus the stored uplift and intervals. -/
def compute (n_resamples : ℕ) (r : BootResult) (two_sided : Bool) :
    BootComputeResult :=
  let p := ((((r.resample_data.filter
      (fun d => decide (d.1 < d.2))).length : ℚ) + 1) / ((n_resamples : ℚ) + 1))
  { pvalue := get_alternative_value p two_sided
    uplift := r.uplift
    uplift_ci := r.uplift_ci
    control_ci := r.a_ci
    test_ci := r.b_ci
    diff_ci := r.diff_ci }

end Bootstrap

/-!
### `QuantileBootstrap` (`ab_testing.py` lines 701-810)

`np.random.binomial(p=q, n=m, size=n_resamples)` after
`np.random.seed(random_state)` is modelled by a stream parameter
`binom : ℤ → ℕ → ℕ → ℚ → ℕ` mapping (seed, position in the seeded draw
sequence, binomial n, binomial p) to the drawn rank; the second array
continues the stream at position `n_resamples`.  Indexing the sorted sample
with a drawn rank is fallible (numpy raises `IndexError` out of bounds). -/

structure QBConfig where
  q : ℚ
  confidence_level : ℚ
  left_quant : ℚ
  right_quant : ℚ
  n_resamples : ℕ
  random_state : ℤ

structure QBState where
  resample_a : List ℚ
  resample_b : List ℚ
  uplift : ℚ
  diffs : List ℚ
  a_ci : ℚ × ℚ
  b_ci : ℚ × ℚ
  diff_ci : ℚ × ℚ
  uplift_dist : List ℚ
  uplift_ci : ℚ × ℚ

/-- numpy fancy indexing `arr[ranks]`: every rank must be a valid index,
otherwise `IndexError`. -/
def indexInto (s : List ℚ) : List ℕ → Except String (List ℚ)
  | [] => Except.ok []
  | r :: rs =>
    match s.get? r with
    | some v => (indexInto s rs).map (fun vs => v :: vs)
    | none => Except.error "IndexError: index out of bounds"

namespace QuantileBootstrap

/-- `QuantileBootstrap.resample(*samples)` (lines 730-759): arity check,
sort both samples, draw `n_resamples` order-statistic ranks per arm from
`Binomial(len + 1, q)` and index the sorted arrays, then derive uplift
(from the raw empirical quantiles), differences and intervals. -/
def resample (binom : ℤ → ℕ → ℕ → ℚ → ℕ) (cfg : QBConfig)
    (samples : List (List ℚ)) : Except String QBState :=
  if samples.length ≠ 2 then
    Except.error "You must pass only two samples"
  else
    let sample_a := (samples.getD 0 []).insertionSort (· ≤ ·)
    let sample_b := (samples.getD 1 []).insertionSort (· ≤ ·)
    let ranks_a := (List.range cfg.n_resamples).map
      (fun i => binom cfg.random_state i (sample_a.length + 1) cfg.q)
    let ranks_b := (List.range cfg.n_resamples).map
      (fun i => binom cfg.random_state (cfg.n_resamples + i) (sample_b.length + 1) cfg.q)
    (indexInto sample_a ranks_a).bind (fun ra =>
      (indexInto sample_b ranks_b).map (fun rb =>
        let uplift := compute_uplift (npQuantile sample_a cfg.q) (npQuantile sample_b cfg.q)
        let diffs := List.zipWith (fun b a => b - a) rb ra
        let uplift_dist := List.zipWith compute_uplift ra rb
        { resample_a := ra
          resample_b := rb
          uplift := uplift
          diffs := diffs
          a_ci := compute_ci ra cfg.left_quant cfg.right_quant
          b_ci := compute_ci rb cfg.left_quant cfg.right_quant
          diff_ci := compute_ci diffs cfg.left_quant cfg.right_quant
          uplift_dist := uplift_dist
          uplift_ci := compute_ci uplift_dist cfg.left_quant cfg.right_quant }))

/-- `QuantileBootstrap.compute(two_sided)` (lines 761-784):
`p = (np.sum(resample_b > resample_a) + 1) / (n_resamples + 1)`. -/
def compute (cfg : QBConfig) (st : QBState) (two_sided : Bool) :
    BootComputeResult :=
  let p := ((((List.zip st.resample_b st.resample_a).filter
      (fun d => decide (d.2 < d.1))).length : ℚ) + 1) / ((cfg.n_resamples : ℚ) + 1)
  { pvalue := get_alternative_value p two_sided
    uplift := st.uplift
    uplift_ci := st.uplift_ci
    control_ci := st.a_ci
    test_ci := st.b_ci
    diff_ci := st.diff_ci }

end QuantileBootstrap

/-!
### `permutation_ind` (`ab_testing.py` lines 945-1063)

`seed.permutation(indices)` inside each trial is modelled by a parameter
`perm : ℕ → List ℕ` giving the permuted index list of the pooled data for
each trial; the engine contract makes it a permutation of
`range (size_a + size_b)`, in particular in-bounds, so selection is total
(`List.getD`). -/

structure PermResult where
  pvalue : ℚ
  uplift : ℚ
  diff : ℚ
  permutation_diff_ci : ℚ × ℚ

namespace PermutationInd

/-- One permutation trial over pooled rows of type `α` with statistic
`func` (lines 1049-1053): permute the pooled indices, split at `size_a`,
difference of the statistic on the two partitions. -/
def trialDiff {α : Type _} [Inhabited α] (func : List α → ℚ)
    (combined : List α) (size_a : ℕ) (ids : List ℕ) : ℚ :=
  let perm_sample_a := (ids.take size_a).map (fun i => combined.getD i default)
  let perm_sample_b := (ids.drop size_a).map (fun i => combined.getD i default)
  func perm_sample_b - func perm_sample_a

/-- The shared tail of `permutation_ind` (lines 1040-1063) over pooled rows
of type `α`: observed difference, uplift, the permutation-null difference
array and the add-one-smoothed p-value. -/
def core {α : Type _} [Inhabited α] (func : List α → ℚ)
    (sample_a sample_b : List α) (n_resamples : ℕ) (two_sided : Bool)
    (perm : ℕ → List ℕ) (left_quant right_quant : ℚ) : PermResult :=
  let observed_diff := func sample_b - func sample_a
  let combined := sample_a ++ sample_b
  let size_a := sample_a.length
  let diff_arr := (List.range n_resamples).map
    (fun t => trialDiff func combined size_a (perm t))
  let p := (((diff_arr.filter (fun d => decide (d < observed_diff))).length : ℚ) + 1) /
    ((n_resamples : ℚ) + 1)
  -- line 1059 inlines `min(2 * p, 2 - 2 * p) if two_sided else p`, which is
  -- exactly `_get_alternative_value`
  { pvalue := get_alternative_value p two_sided
    uplift := observed_diff / func sample_a
    diff := observed_diff
    permutation_diff_ci := compute_ci diff_arr left_quant right_quant }

end PermutationInd

/-- `permutation_ind(*samples, ...)` (lines 945-1063): two raw samples with
the supplied statistic, or four samples in ratio mode (joint
numerator/denominator rows, statistic replaced by the row-sum ratio), arity
error otherwise; the ratio branch validates the within-arm lengths before
anything else runs. -/
def permutation_ind (func : List ℚ → ℚ) (confidence_level : ℚ)
    (n_resamples : ℕ) (two_sided : Bool) (perm : ℕ → List ℕ)
    (samples : List (List ℚ)) : Except String PermResult :=
  let left_quant := (1 - confidence_level) / 2
  let right_quant := 1 - (1 - confidence_level) / 2
  if samples.length = 2 then
    Except.ok (PermutationInd.core func (samples.getD 0 []) (samples.getD 1 [])
      n_resamples two_sided perm left_quant right_quant)
  else if samples.length = 4 then
    if (samples.getD 0 []).length ≠ (samples.getD 1 []).length ∨
        (samples.getD 2 []).length ≠ (samples.getD 3 []).length then
      Except.error "Numerator and denominator must be the same length"
    else
      let sample_a := List.zip (samples.getD 0 []) (samples.getD 1 [])
      let sample_b := List.zip (samples.getD 2 []) (samples.getD 3 [])
      Except.ok (PermutationInd.core Bootstrap.ratio_func sample_a sample_b
        n_resamples two_sided perm left_quant right_quant)
  else
    Except.error "You must pass only two samples for non-ratio metrics, or four samples for ratio metrics: numerator and denominator for control, then for treatment groups"

/-!
### `permutation_did` (`ab_testing.py` lines 1066-1155)

`np.random.permutation(group_label)` per trial is modelled by a parameter
`permL : ℕ → List ℚ` giving the permuted label vector of each trial. -/

/-- `sorted(set(labels))`. -/
def dedupSorted (l : List ℚ) : List ℚ := (l.dedup).insertionSort (· ≤ ·)

/-- `_groupby(values, group_label, experiment_stage_label)`
(lines 1123-1129): the group×stage table of sums of `values`. -/
def didGroupby (values group stage : List ℚ) : List (List ℚ) :=
  (dedupSorted group).map (fun g =>
    (dedupSorted stage).map (fun st =>
      ((((values.zip group).zip stage).filter
        (fun x => decide (x.1.2 = g) && decide (x.2 = st))).map
          (fun x => x.1.1)).sum))

/-- `_compute_did(grouped_data)` (lines 1131-1133): second-stage minus
first-stage deltas, test row minus control row.  (numpy raises on tables
with fewer than two rows or columns; the closed model uses `getD 0`, which
only matters off the claims' inputs.) -/
def didStat (grouped : List (List ℚ)) : ℚ :=
  let delta := grouped.map (fun row => row.getD 1 0 - row.getD 0 0)
  delta.getD 1 0 - delta.getD 0 0

/-- Elementwise `grouped_num / grouped_denom`. -/
def tableDiv (a b : List (List ℚ)) : List (List ℚ) :=
  List.zipWith (fun ra rb => List.zipWith (· / ·) ra rb) a b

structure DidResult where
  stat : ℚ
  pvalue : ℚ

/-- `permutation_did(*values, group_label, experiment_stage_label, ratio, ...)`
(lines 1066-1155): validation of arity and equal array sizes, the observed
difference-in-differences statistic, `n_resamples` label-permutation
trials, and the add-one-smoothed (optionally folded) p-value. -/
def permutation_did (permL : ℕ → List ℚ) (values : List (List ℚ))
    (group_label experiment_stage_label : List ℚ)
    (ratioFlag two_sided : Bool) (n_resamples : ℕ) :
    Except String DidResult :=
  if ratioFlag then
    if values.length ≠ 2 then
      Except.error "For ratio metrics you must use two data columns: numerator and denominator"
    else
      let numerator := values.getD 0 []
      let denominator := values.getD 1 []
      if ¬(denominator.length = numerator.length ∧
          numerator.length = group_label.length ∧
          group_label.length = experiment_stage_label.length) then
        Except.error "All arrays must have the same size"
      else
        let true_did := didStat (tableDiv
          (didGroupby numerator group_label experiment_stage_label)
          (didGroupby denominator group_label experiment_stage_label))
        let stat := (List.range n_resamples).map (fun t =>
          didStat (tableDiv
            (didGroupby numerator (permL t) experiment_stage_label)
            (didGroupby denominator (permL t) experiment_stage_label)))
        let p := (((stat.filter (fun s => decide (s < true_did))).length : ℚ) + 1) /
          ((n_resamples : ℚ) + 1)
        -- line 1153 inlines `min(2*p, 2-2*p) if two_sided else p`, which is
        -- exactly `_get_alternative_value`
        Except.ok { stat := true_did
                    pvalue := get_alternative_value p two_sided }
  else
    if values.length ≠ 1 then
      Except.error "For non-ratio metrics you must use one sample of data"
    else
      let vals := values.getD 0 []
      if ¬(vals.length = group_label.length ∧
          group_label.length = experiment_stage_label.length) then
        Except.error "All arrays must have the same size"
      else
        let true_did := didStat (didGroupby vals group_label experiment_stage_label)
        let stat := (List.range n_resamples).map (fun t =>
          didStat (didGroupby vals (permL t) experiment_stage_label))
        let p := (((stat.filter (fun s => decide (s < true_did))).length : ℚ) + 1) /
          ((n_resamples : ℚ) + 1)
        Except.ok { stat := true_did
                    pvalue := get_alternative_value p two_sided }

/-!
### `stat_analysis.py`: jackknife and bootstrap confidence intervals

`scipy.stats.norm.ppf` / `scipy.stats.norm.cdf` and the float powers
`x ** 0.5` / `x ** 1.5` have no exact rational counterpart; they enter the
embedding as function parameters (`ppf`, `cdf`, `sqrtF`, `rt32`). -/

structure JackknifeResult where
  estim : ℚ
  bias : ℚ
  se : ℚ
  ci : ℚ × ℚ

/-- `jackknife_estim(sample, func, confidence_level)` (lines 211-243):
leave-one-out replicates, `bias = (n-1)(mean(replicates) - stat)`,
bias-corrected estimate, standard error and normal CI.

The exact-rational `npMean` evaluates the empty list to `0`, whereas
`np.mean([])` is NaN; so this model of the routine is faithful only on
inputs on which no statistic is taken of an empty array — with the mean
statistic, on samples of length at least two.  `jackknife_estim_nan` below
models the NaN-carrying float path, and `jackknife_estim_nan_agrees`
proves the two agree away from it. -/
def jackknife_estim (ppf sqrtF : ℚ → ℚ) (sample : List ℚ)
    (func : List ℚ → ℚ) (confidence_level : ℚ) : JackknifeResult :=
  let sample_size := sample.length
  let z := ppf (1 - (1 - confidence_level) / 2)
  let stat := func sample
  let jackknife_stats := (List.range sample_size).map
    (fun i => func (sample.eraseIdx i))
  let mean_jacknife_stat := npMean jackknife_stats
  let bias := ((sample_size : ℚ) - 1) * (mean_jacknife_stat - stat)
  let estim := stat - bias
  let se := sqrtF (((sample_size : ℚ) - 1) *
    npMean (jackknife_stats.map (fun x => (x - mean_jacknife_stat) ^ 2)))
  { estim := estim
    bias := bias
    se := se
    ci := (estim - z * se, estim + z * se) }

/-- `np.mean` as numpy computes it over floats: NaN (modelled as `none`)
on the empty array, the exact mean otherwise. -/
def npMeanNaN (l : List ℚ) : Option ℚ :=
  if l.isEmpty then none else some (npMean l)

/-- Float subtraction with IEEE-754 NaN propagation: NaN when either
operand is NaN. -/
def fsub : Option ℚ → Option ℚ → Option ℚ
  | some a, some b => some (a - b)
  | _, _ => none

/-- Multiplication of a float by a real scalar with NaN propagation: NaN
times anything (including `0 * NaN`) is NaN. -/
def fscale (c : ℚ) : Option ℚ → Option ℚ
  | some a => some (c * a)
  | none => none

/-- `np.mean` over an array of floats that may contain NaN: NaN when the
array is empty or contains a NaN, the exact mean otherwise. -/
def fmean (l : List (Option ℚ)) : Option ℚ :=
  if l.isEmpty ∨ l.any (fun x => x.isNone) then none
  else some (npMean (l.map (fun x => x.getD 0)))

/-- The `(bias, estim)` pair of `jackknife_estim` (lines 240-241) computed
in the float model in which `np.mean([])` is NaN and NaN propagates
through the arithmetic — the path the exact-rational `jackknife_estim`
cannot represent.  The statistic `func` is float-valued (`none` = NaN). -/
def jackknife_estim_nan (sample : List ℚ) (func : List ℚ → Option ℚ) :
    Option ℚ × Option ℚ :=
  let sample_size := sample.length
  let stat := func sample
  let jackknife_stats := (List.range sample_size).map
    (fun i => func (sample.eraseIdx i))
  let mean_jacknife_stat := fmean jackknife_stats
  let bias := fscale ((sample_size : ℚ) - 1) (fsub mean_jacknife_stat stat)
  let estim := fsub stat bias
  (bias, estim)

/-- The bootstrap replicate statistics of `bootstrap_ci` (lines 284-287):
`func(sample[np.random.randint(0, n, n)])` per trial, the drawn index lists
given by the stream `draws`. -/
def bootstrapStats (sample : List ℚ) (func : List ℚ → ℚ)
    (draws : List (List ℕ)) : List ℚ :=
  draws.map (fun ids => func (ids.map (fun i => sample.getD i 0)))

/-- BCa bias correction (line 294):
`z0 = norm.ppf(np.sum(bootstrap_stats < sample_stat) / n_resamples)`. -/
def bcaZ0 (ppf : ℚ → ℚ) (bstats : List ℚ) (sample_stat : ℚ)
    (n_resamples : ℕ) : ℚ :=
  ppf (((bstats.filter (fun x => decide (x < sample_stat))).length : ℚ) /
    (n_resamples : ℚ))

/-- The jackknife replicates used for the BCa acceleration (line 296). -/
def jackknifeStats (sample : List ℚ) (func : List ℚ → ℚ) : List ℚ :=
  (List.range sample.length).map (fun i => func (sample.eraseIdx i))

/-- BCa acceleration (lines 297-300): skewness of the jackknife
replicates, `acc = num / denom` when `denom = 6 * (Σ(m-j)²)^1.5` is
non-zero, else `0`. -/
def bcaAcc (rt32 : ℚ → ℚ) (sample : List ℚ) (func : List ℚ → ℚ) : ℚ :=
  let js := jackknifeStats sample func
  let m := npMean js
  let num := (js.map (fun x => (m - x) ^ 3)).sum
  let denom := 6 * rt32 ((js.map (fun x => (m - x) ^ 2)).sum)
  if denom ≠ 0 then num / denom else 0

/-- `bootstrap_ci(sample, func, confidence_level, n_resamples, method, ...)`
(lines 245-308) with the random index draws passed as `draws`
(`n_resamples = draws.length`): percentile, pivotal and BCa intervals over
the bootstrap replicate distribution; unknown methods raise `ValueError`. -/
def bootstrap_ci (cdf ppf rt32 : ℚ → ℚ) (sample : List ℚ)
    (func : List ℚ → ℚ) (confidence_level : ℚ) (draws : List (List ℕ))
    (method : String) : Except String (ℚ × ℚ) :=
  let sample_stat := func sample
  let lower := (1 - confidence_level) / 2
  let upper := 1 - (1 - confidence_level) / 2
  let bstats := bootstrapStats sample func draws
  if method = "percentile" then
    Except.ok (npQuantile bstats lower, npQuantile bstats upper)
  else if method = "pivotal" then
    let reflected := bstats.map (fun b => 2 * sample_stat - b)
    Except.ok (npQuantile reflected lower, npQuantile reflected upper)
  else if method = "bca" then
    let z0 := bcaZ0 ppf bstats sample_stat draws.length
    let acc := bcaAcc rt32 sample func
    let ppf_l := ppf lower
    let ppf_u := ppf upper
    let a_1 := cdf (z0 + (z0 + ppf_l) / (1 - acc * (z0 + ppf_l)))
    let a_2 := cdf (z0 + (z0 + ppf_u) / (1 - acc * (z0 + ppf_u)))
    Except.ok (npQuantile bstats a_1, npQuantile bstats a_2)
  else
    Except.error "Please use percentile, pivotal, or bca."

/-!
### `_get_readable_format` (`ab_testing.py` lines 125-147)

Each printed line is classified by the formatting applied to its value:
percentage (`f-string` with `:.3%`), percentage pair (the `uplift_ci`
branch), or plain pass-through. -/

inductive PyValue where
  | num (q : ℚ)
  | pairVal (lo hi : ℚ)
deriving DecidableEq

inductive FormattedLine where
  | percent (key : String) (v : PyValue)
  | percentPair (key : String) (v : PyValue)
  | plain (key : String) (v : PyValue)
deriving DecidableEq

/-- The branch taken by `_get_readable_format` for one `(key, value)` pair
(lines 140-147): percentage for `uplift`/`proba`/`test_loss`/`control_loss`,
the lower-upper percentage pair only for the literal key `uplift_ci`, plain
printing otherwise. -/
def getReadableFormatLine (key : String) (v : PyValue) : FormattedLine :=
  if key = "uplift" ∨ key = "proba" ∨ key = "test_loss" ∨ key = "control_loss" then
    FormattedLine.percent key v
  else if key = "uplift_ci" then
    FormattedLine.percentPair key v
  else
    FormattedLine.plain key v

/-- `_get_readable_format(result_dict)`: every entry printed in order. -/
def getReadableFormat (d : List (String × PyValue)) : List FormattedLine :=
  d.map (fun kv => getReadableFormatLine kv.1 kv.2)

def rendersPercent : FormattedLine → Bool
  | FormattedLine.percent _ _ => true
  | _ => false

def rendersPercentPair : FormattedLine → Bool
  | FormattedLine.percentPair _ _ => true
  | _ => false

def rendersPlain : FormattedLine → Bool
  | FormattedLine.plain _ _ => true
  | _ => false

/-!
## Theorems for the claims
-/

/-- Claim C2 (code evidence): the claim asserts that after session
construction the state satisfies `left_quant = (1-c)/2` and
`right_quant = 1-(1-c)/2`; the code instead raises `AttributeError` during
`ParentTestInterface.__init__` for every confidence level, because
`__setattr__` reads `self.init_items` (line 45) while setting `left_quant`
before `__init__` has assigned `init_items` (line 20), so construction
never completes and no post-construction state exists. -/
theorem c2_session_construction_raises (c : ℚ) :
    parentTestInterfaceInit c = Except.error "AttributeError: init_items" := rfl

/-- Claim C3: `Bootstrap.resample` on a pair of samples with `ind = False`
and unequal lengths returns the `ValueError` from `_rel_size_comparison`,
for every statistic, resample count and index stream — in particular the
error does not depend on the trial randomness, so no resampling trial
executes and no resample distribution is produced (the session state is
returned unchanged since the function aborts before any assignment). -/
theorem c3_paired_unequal_lengths_error (func : List ℚ → ℚ) (n_resamples : ℕ)
    (integers : ℕ → ℕ → ℕ → ℕ → List ℕ) (sample_a sample_b : List ℚ)
    (match_max_length : Bool) (left_quant right_quant : ℚ)
    (h : sample_a.length ≠ sample_b.length) :
    Bootstrap.resample func n_resamples integers [sample_a, sample_b]
      match_max_length false left_quant right_quant
      = Except.error "Relative samples must be the same sample size" := by
  simp [Bootstrap.resample, h]

/-- Concrete witness for claim C3. -/
theorem c3_paired_unequal_lengths_error_witness :
    ([1, 2] : List ℚ).length ≠ ([1] : List ℚ).length ∧
    Bootstrap.resample npMean 5 (fun _ _ _ _ => []) [[1, 2], [1]] false false
      (1/40) (39/40)
      = Except.error "Relative samples must be the same sample size" :=
  ⟨by decide, c3_paired_unequal_lengths_error npMean 5 (fun _ _ _ _ => [])
    [1, 2] [1] false (1/40) (39/40) (by decide)⟩

/-- Claim C4: for four-array (ratio metric) input with a numerator and its
denominator of different lengths within an arm, both `Bootstrap.resample`
and `permutation_ind` return the length-check `ValueError`, for every
statistic, resample count and randomness stream — the check precedes every
resampling trial. -/
theorem c4_ratio_mismatch_error (func f2 : List ℚ → ℚ) (n n2 : ℕ)
    (integers : ℕ → ℕ → ℕ → ℕ → List ℕ) (mml ind two_sided : Bool)
    (lq rq cl : ℚ) (perm : ℕ → List ℕ) (na da nb db : List ℚ)
    (h : na.length ≠ da.length ∨ nb.length ≠ db.length) :
    Bootstrap.resample func n integers [na, da, nb, db] mml ind lq rq
      = Except.error "Numerator and denominator must be the same length for ratio metrics." ∧
    permutation_ind f2 cl n2 two_sided perm [na, da, nb, db]
      = Except.error "Numerator and denominator must be the same length" := by
  constructor
  · simp [Bootstrap.resample, h]
  · simp [permutation_ind, h]

/-- Concrete witness for claim C4. -/
theorem c4_ratio_mismatch_error_witness :
    (([1, 2] : List ℚ).length ≠ ([1] : List ℚ).length ∨
      ([3] : List ℚ).length ≠ ([4] : List ℚ).length) ∧
    Bootstrap.resample npMean 7 (fun _ _ _ _ => []) [[1, 2], [1], [3], [4]]
      false true (1/40) (39/40)
      = Except.error "Numerator and denominator must be the same length for ratio metrics." ∧
    permutation_ind npMean (19/20) 7 true (fun _ => []) [[1, 2], [1], [3], [4]]
      = Except.error "Numerator and denominator must be the same length" :=
  ⟨by decide, c4_ratio_mismatch_error npMean npMean 7 7 (fun _ _ _ _ => [])
    false true true (1/40) (39/40) (19/20) (fun _ => []) [1, 2] [1] [3] [4]
    (by decide)⟩

/-- Claim C9: `QuantileBootstrap.resample` is not total over valid inputs:
there is a rank stream inside the support of `Binomial(len + 1, q)` (every
draw at most the binomial `n` parameter), a valid configuration and sample,
for which the first drawn rank equals `len(sample) + 1` and resampling
aborts with `IndexError` instead of returning a distribution. -/
theorem c9_quantile_rank_out_of_bounds :
    ∃ binom : ℤ → ℕ → ℕ → ℚ → ℕ,
      (∀ seed pos n p, binom seed pos n p ≤ n) ∧
      ∃ cfg : QBConfig, ∃ sample : List ℚ,
        binom cfg.random_state 0 (sample.length + 1) cfg.q = sample.length + 1 ∧
        QuantileBootstrap.resample binom cfg [sample, sample]
          = Except.error "IndexError: index out of bounds" :=
  ⟨fun _ _ n _ => n, fun _ _ _ _ => le_refl _,
    ⟨1/2, 19/20, 1/40, 39/40, 1, 0⟩, [5], rfl, rfl⟩

/-- Claim C10 (counterexample): the key `control_ci` ends in `_ci`, yet
`_get_readable_format` prints it through the plain `else` branch, not as a
formatted lower-upper pair; only the literal key `uplift_ci` receives the
pair formatting. -/
theorem c10_ci_keys_counterexample :
    String.data "control_ci" = String.data "control" ++ String.data "_ci" ∧
    getReadableFormatLine "control_ci" (PyValue.pairVal (1/10) (1/5))
      = FormattedLine.plain "control_ci" (PyValue.pairVal (1/10) (1/5)) ∧
    rendersPercentPair
      (getReadableFormatLine "control_ci" (PyValue.pairVal (1/10) (1/5))) = false := by
  refine ⟨by decide, rfl, rfl⟩

/-- Claim C10 (amended): `uplift`, `proba`, `test_loss` and `control_loss`
render as percentages; only the literal key `uplift_ci` renders as a
lower-upper pair; every other key — including the `_ci`-suffixed keys
`control_ci`, `test_ci`, `diff_ci` and `permutation_diff_ci` — passes
through unformatted. -/
theorem c10_readable_format_amended (key : String) (v : PyValue) :
    (rendersPercent (getReadableFormatLine key v) = true ↔
      (key = "uplift" ∨ key = "proba" ∨ key = "test_loss" ∨ key = "control_loss")) ∧
    (rendersPercentPair (getReadableFormatLine key v) = true ↔ key = "uplift_ci") ∧
    (rendersPlain (getReadableFormatLine key v) = true ↔
      (¬(key = "uplift" ∨ key = "proba" ∨ key = "test_loss" ∨ key = "control_loss") ∧
        key ≠ "uplift_ci")) := by
  rcases Decidable.em
      (key = "uplift" ∨ key = "proba" ∨ key = "test_loss" ∨ key = "control_loss")
    with h1 | h1
  · have hne : key ≠ "uplift_ci" := by
      rcases h1 with h | h | h | h <;> (subst h; decide)
    simp [getReadableFormatLine, h1, hne, rendersPercent, rendersPercentPair,
      rendersPlain]
  · by_cases h2 : key = "uplift_ci"
    · simp [getReadableFormatLine, h1, h2, rendersPercent, rendersPercentPair,
        rendersPlain]
    · simp [getReadableFormatLine, h1, h2, rendersPercent, rendersPercentPair,
        rendersPlain]

lemma sum_map_add_const (n : ℕ) (x : ℚ) (g : ℕ → ℚ) :
    ((List.range n).map (fun i => x + g i)).sum
      = (n : ℚ) * x + ((List.range n).map g).sum := by
  induction n with
  | zero => simp
  | succ m ih =>
    rw [List.range_succ]
    simp only [List.map_append, List.sum_append, List.map_cons, List.sum_cons,
      List.map_nil, List.sum_nil, ih]
    push_cast
    ring

lemma sum_map_div (l : List ℕ) (f : ℕ → ℚ) (c : ℚ) :
    (l.map (fun i => f i / c)).sum = (l.map f).sum / c := by
  induction l with
  | nil => simp
  | cons a l ih => simp [ih, add_div]

/-- The sum of all leave-one-out sums of a list equals `(n - 1)` times the
total sum. -/
lemma sum_eraseIdx_sums (l : List ℚ) :
    ((List.range l.length).map (fun i => (l.eraseIdx i).sum)).sum
      = ((l.length : ℚ) - 1) * l.sum := by
  induction l with
  | nil => simp
  | cons x xs ih =>
    rw [List.length_cons, List.range_succ_eq_map, List.map_cons, List.map_map,
      List.sum_cons]
    have hcomp :
        ((List.range xs.length).map
          ((fun i => ((x :: xs).eraseIdx i).sum) ∘ Nat.succ))
          = (List.range xs.length).map (fun i => x + (xs.eraseIdx i).sum) := by
      simp [Function.comp, List.eraseIdx_cons_succ]
    rw [hcomp, sum_map_add_const, ih]
    simp only [List.eraseIdx_cons_zero, List.sum_cons]
    push_cast
    ring

lemma length_eraseIdx_lt {α : Type _} (l : List α) (i : ℕ) (h : i < l.length) :
    (l.eraseIdx i).length = l.length - 1 := by
  rw [List.length_eraseIdx]
  simp [h]

/-- `fmean` over a NaN-free float array is the exact mean of its values. -/
lemma fmean_map_some (xs : List ℚ) (h : xs ≠ []) :
    fmean (xs.map some) = some (npMean xs) := by
  unfold fmean
  have h1 : ¬((xs.map some).isEmpty ∨
      (xs.map some).any (fun x => x.isNone)) := by
    simp [List.isEmpty_iff, h, List.any_map, Function.comp]
  rw [if_neg h1]
  have h2 : (xs.map some).map (fun x => x.getD 0) = xs := by
    rw [List.map_map]
    have hid : ((fun x : Option ℚ => x.getD 0) ∘ some) = fun a : ℚ => a := by
      funext a
      rfl
    rw [hid]
    exact List.map_id' xs
  rw [h2]

/-- Away from the empty-replicate path — with the mean statistic, on every
sample of length at least two — the float computation of the jackknife
bias and estimate (NaN model) agrees with the exact-rational
`jackknife_estim`. -/
lemma jackknife_estim_nan_agrees (ppf sqrtF : ℚ → ℚ) (cl : ℚ)
    (sample : List ℚ) (h : 2 ≤ sample.length) :
    jackknife_estim_nan sample npMeanNaN
      = (some (jackknife_estim ppf sqrtF sample npMean cl).bias,
         some (jackknife_estim ppf sqrtF sample npMean cl).estim) := by
  have hne : ¬ sample.isEmpty := by
    cases sample
    · simp at h
    · simp
  have hstat : npMeanNaN sample = some (npMean sample) := by
    simp [npMeanNaN, hne]
  have hmap : (List.range sample.length).map
      (fun i => npMeanNaN (sample.eraseIdx i))
      = ((List.range sample.length).map
          (fun i => npMean (sample.eraseIdx i))).map some := by
    rw [List.map_map]
    apply List.map_congr_left
    intro i hi
    rw [List.mem_range] at hi
    have hlen : (sample.eraseIdx i).length = sample.length - 1 :=
      length_eraseIdx_lt _ _ hi
    have hne2 : ¬ (sample.eraseIdx i).isEmpty := by
      rw [List.isEmpty_iff, ← List.length_eq_zero, hlen]
      omega
    simp [npMeanNaN, hne2, Function.comp]
  have hrange : (List.range sample.length).map
      (fun i => npMean (sample.eraseIdx i)) ≠ [] := by
    have : sample.length ≠ 0 := by omega
    simp [List.isEmpty_iff, this]
  simp only [jackknife_estim_nan, jackknife_estim]
  rw [hmap, fmean_map_some _ hrange, hstat]
  simp [fsub, fscale]

/-- Claim C7 (counterexample): at the non-empty singleton sample `[5]`,
the only leave-one-out replicate is the mean of the empty array — NaN in
numpy — so, in the NaN-faithful float model of lines 238-241, the
jackknife bias is NaN (not `0`) and the bias-corrected estimate is NaN
(not the plain statistic, which is well-defined and equals `5`). -/
theorem c7_singleton_nan_counterexample :
    ([5] : List ℚ) ≠ [] ∧
    jackknife_estim_nan [5] npMeanNaN = (none, none) ∧
    npMeanNaN [5] = some 5 := by
  refine ⟨by decide, rfl, ?_⟩
  norm_num [npMeanNaN, npMean]

/-- Claim C7 (amended): for every sample with at least two elements, with
the statistic being the arithmetic mean, the jackknife bias
`(n-1)(mean(replicates) - observed)` is `0` and the bias-corrected
estimate equals the plain statistic, because the mean of the leave-one-out
means equals the sample mean.  (On this domain no replicate is taken of an
empty array, so the exact-rational model coincides with the float
computation, by `jackknife_estim_nan_agrees`; at singleton samples the
code instead produces NaN, see the counterexample.) -/
theorem c7_jackknife_mean_identity (ppf sqrtF : ℚ → ℚ) (cl : ℚ)
    (sample : List ℚ) (h : 2 ≤ sample.length) :
    (jackknife_estim ppf sqrtF sample npMean cl).bias = 0 ∧
    (jackknife_estim ppf sqrtF sample npMean cl).estim = npMean sample := by
  have hmain : ((sample.length : ℚ) - 1) *
      (npMean ((List.range sample.length).map (fun i => npMean (sample.eraseIdx i)))
        - npMean sample) = 0 := by
    have hge1 : (1 : ℕ) ≤ sample.length := le_trans (by norm_num) h
    have hcast : ((sample.length : ℚ) - 1) ≠ 0 := by
      have h2q : (2 : ℚ) ≤ (sample.length : ℚ) := by exact_mod_cast h
      intro hc
      linarith
    have hmap : (List.range sample.length).map
        (fun i => npMean (sample.eraseIdx i))
        = (List.range sample.length).map
          (fun i => (sample.eraseIdx i).sum / ((sample.length : ℚ) - 1)) := by
      apply List.map_congr_left
      intro i hi
      rw [List.mem_range] at hi
      unfold npMean
      rw [length_eraseIdx_lt _ _ hi]
      congr 1
      push_cast [Nat.cast_sub hge1]
      ring
    have hjs : ((List.range sample.length).map
        (fun i => (sample.eraseIdx i).sum / ((sample.length : ℚ) - 1))).sum
        = sample.sum := by
      rw [sum_map_div, sum_eraseIdx_sums]
      exact mul_div_cancel_left₀ _ hcast
    have hlen : ((List.range sample.length).map
        (fun i => (sample.eraseIdx i).sum / ((sample.length : ℚ) - 1))).length
        = sample.length := by simp
    rw [hmap]
    unfold npMean
    rw [hjs, hlen]
    ring
  constructor
  · simpa [jackknife_estim] using hmain
  · simp only [jackknife_estim]
    rw [hmain]
    ring

/-- Concrete witness for claim C7. -/
theorem c7_jackknife_mean_identity_witness :
    2 ≤ ([1, 2, 3] : List ℚ).length ∧
    (jackknife_estim id id [1, 2, 3] npMean (19/20)).bias = 0 ∧
    (jackknife_estim id id [1, 2, 3] npMean (19/20)).estim = npMean [1, 2, 3] :=
  ⟨by decide, c7_jackknife_mean_identity id id (19/20) [1, 2, 3] (by decide)⟩

lemma pvalueProps_get_alternative {α : Type _} (X : List α) (p : α → Bool)
    (n : ℕ) (h : X.length ≤ n) :
    pvalueProps n
      (get_alternative_value ((((X.filter p).length : ℚ) + 1) / ((n : ℚ) + 1)) false) ∧
    get_alternative_value ((((X.filter p).length : ℚ) + 1) / ((n : ℚ) + 1)) true
      = min (2 * get_alternative_value
              ((((X.filter p).length : ℚ) + 1) / ((n : ℚ) + 1)) false)
          (2 - 2 * get_alternative_value
              ((((X.filter p).length : ℚ) + 1) / ((n : ℚ) + 1)) false) := by
  constructor
  · simpa [get_alternative_value] using
      pvalueProps_of (X.filter p).length n
        (le_trans (List.length_filter_le _ _) h)
  · simp [get_alternative_value]

lemma okImplies_bind_map {α β γ : Type _} (e₁ : Except String α)
    (e₂ : Except String β) (f : α → β → γ) (P : γ → Prop)
    (h : ∀ a b, e₁ = Except.ok a → e₂ = Except.ok b → P (f a b)) :
    okImplies (e₁.bind (fun a => e₂.map (fun b => f a b))) P := by
  cases e₁ with
  | error e => simp [Except.bind]
  | ok a =>
    cases e₂ with
    | error e => simp [Except.bind, Except.map]
    | ok b =>
      simpa [Except.bind, Except.map] using h a b rfl rfl

lemma indexInto_length (s : List ℚ) :
    ∀ (ranks : List ℕ) (vs : List ℚ),
      indexInto s ranks = Except.ok vs → vs.length = ranks.length := by
  intro ranks
  induction ranks with
  | nil =>
    intro vs hv
    unfold indexInto at hv
    cases hv
    rfl
  | cons r rs ih =>
    intro vs hv
    unfold indexInto at hv
    cases hg : s.get? r with
    | none => rw [hg] at hv; cases hv
    | some v =>
      rw [hg] at hv
      cases hrec : indexInto s rs with
      | error e => rw [hrec] at hv; cases hv
      | ok vs2 =>
        rw [hrec] at hv
        cases hv
        simp [ih vs2 hrec]

/-- Claim C1: for every resampling-based test — `BayesBeta.compute`,
`Bootstrap.compute`, `QuantileBootstrap.compute`, `permutation_ind` and
`permutation_did` — with `n` resample trials, the one-sided p-value equals
`(count + 1)/(n + 1)` for an integer `count` with `0 ≤ count ≤ n`, hence
lies in `[1/(n+1), 1]` and is never exactly `0`; and the two-sided output
is `min(2p, 2 - 2p)`, which lies in `[0, 1]`. -/
theorem c1_pvalue_addone_smoothing :
    (∀ (betaStream : ℚ → ℚ → ℕ → ℚ) (n : ℕ) (lq rq : ℚ)
        (nobs counts prior : List ℚ),
      okImplies (BayesBeta.resample betaStream n lq rq nobs counts prior)
        (fun s =>
          pvalueProps n (BayesBeta.compute s false).pvalue ∧
          (BayesBeta.compute s true).pvalue
            = min (2 * (BayesBeta.compute s false).pvalue)
                (2 - 2 * (BayesBeta.compute s false).pvalue))) ∧
    (∀ (func : List ℚ → ℚ) (n : ℕ) (integers : ℕ → ℕ → ℕ → ℕ → List ℕ)
        (samples : List (List ℚ)) (mml ind : Bool) (lq rq : ℚ),
      okImplies (Bootstrap.resample func n integers samples mml ind lq rq)
        (fun r =>
          pvalueProps n (Bootstrap.compute n r false).pvalue ∧
          (Bootstrap.compute n r true).pvalue
            = min (2 * (Bootstrap.compute n r false).pvalue)
                (2 - 2 * (Bootstrap.compute n r false).pvalue))) ∧
    (∀ (binom : ℤ → ℕ → ℕ → ℚ → ℕ) (cfg : QBConfig)
        (samples : List (List ℚ)),
      okImplies (QuantileBootstrap.resample binom cfg samples)
        (fun st =>
          pvalueProps cfg.n_resamples
            (QuantileBootstrap.compute cfg st false).pvalue ∧
          (QuantileBootstrap.compute cfg st true).pvalue
            = min (2 * (QuantileBootstrap.compute cfg st false).pvalue)
                (2 - 2 * (QuantileBootstrap.compute cfg st false).pvalue))) ∧
    (∀ (func : List ℚ → ℚ) (cl : ℚ) (n : ℕ) (perm : ℕ → List ℕ)
        (samples : List (List ℚ)),
      okImplies2 (permutation_ind func cl n false perm samples)
        (permutation_ind func cl n true perm samples)
        (fun r₀ r₁ =>
          pvalueProps n r₀.pvalue ∧
          r₁.pvalue = min (2 * r₀.pvalue) (2 - 2 * r₀.pvalue))) ∧
    (∀ (permL : ℕ → List ℚ) (values : List (List ℚ))
        (group_label stage_label : List ℚ) (ratioFlag : Bool) (n : ℕ),
      okImplies2 (permutation_did permL values group_label stage_label ratioFlag false n)
        (permutation_did permL values group_label stage_label ratioFlag true n)
        (fun r₀ r₁ =>
          pvalueProps n r₀.pvalue ∧
          r₁.pvalue = min (2 * r₀.pvalue) (2 - 2 * r₀.pvalue))) := by
  refine ⟨?_, ?_, ?_, ?_, ?_⟩
  · -- BayesBeta
    intro betaStream n lq rq nobs counts prior
    unfold BayesBeta.resample
    split
    · simp
    · split
      · simp only [Except.bind, okImplies_ok, BayesBeta.compute]
        exact pvalueProps_get_alternative _ _ n (by simp [List.length_zip])
      · split
        · simp only [Except.bind, okImplies_ok, BayesBeta.compute]
          exact pvalueProps_get_alternative _ _ n (by simp [List.length_zip])
        · split
          · simp [Except.bind]
          · simp only [Except.bind, okImplies_ok, BayesBeta.compute]
            exact pvalueProps_get_alternative _ _ n (by simp [List.length_zip])
  · -- Bootstrap
    intro func n integers samples mml ind lq rq
    simp only [Bootstrap.resample]
    split
    · split
      · simp
      · simp only [okImplies_ok, Bootstrap.compute, Bootstrap.finalize]
        exact pvalueProps_get_alternative _ _ n (by simp)
    · split
      · split
        · simp
        · split
          · simp
          · simp only [okImplies_ok, Bootstrap.compute, Bootstrap.finalize]
            exact pvalueProps_get_alternative _ _ n (by simp)
      · simp
  · -- QuantileBootstrap
    intro binom cfg samples
    simp only [QuantileBootstrap.resample]
    split
    · simp
    · apply okImplies_bind_map
      intro ra rb hA hB
      have hra := indexInto_length _ _ _ hA
      have hrb := indexInto_length _ _ _ hB
      simp only [List.length_map, List.length_range] at hra hrb
      simp only [QuantileBootstrap.compute]
      exact pvalueProps_get_alternative _ _ cfg.n_resamples
        (by simp [List.length_zip, hra, hrb])
  · -- permutation_ind
    intro func cl n perm samples
    simp only [permutation_ind]
    split
    · simp only [okImplies2_ok, PermutationInd.core]
      exact pvalueProps_get_alternative _ _ n (by simp)
    · split
      · split
        · simp
        · simp only [okImplies2_ok, PermutationInd.core]
          exact pvalueProps_get_alternative _ _ n (by simp)
      · simp
  · -- permutation_did
    intro permL values group_label stage_label ratioFlag n
    simp only [permutation_did]
    split
    · split
      · simp
      · split
        · simp
        · simp only [okImplies2_ok]
          exact pvalueProps_get_alternative _ _ n (by simp)
    · split
      · simp
      · split
        · simp
        · simp only [okImplies2_ok]
          exact pvalueProps_get_alternative _ _ n (by simp)

/-- Claim C6 (counterexample): on a resampled `BayesBeta` session whose
posterior draws are `beta_control = [2]` and `beta_test = [1]`, `compute`
returns `test_loss = mean(max((control - test)/test, 0)) = 1`, while the
claimed formula `mean(max(-uplift, 0))` over the uplift distribution gives
`1/2`; the two disagree. -/
theorem c6_test_loss_counterexample :
    Except.map
        (fun s => ((BayesBeta.compute s false).test_loss, bayesTestLossClaimed s))
        (BayesBeta.resample (fun _ b _ => if b ≤ 2 then (2 : ℚ) else 1) 1
          (1/40) (39/40) [1, 1] [2, 3] [])
      = Except.ok (1, 1/2) ∧ (1 : ℚ) ≠ 1/2 := by
  constructor
  · norm_num [BayesBeta.resample, BayesBeta.compute, bayesTestLossClaimed,
      compute_uplift, npMean, Except.map, Except.bind]
  · norm_num

/-- Claim C6 (amended): on every successfully resampled `BayesBeta`
session, `compute` returns `control_loss = mean(max(u, 0))` with `u` the
pointwise uplift `(test - control)/control` of the two posterior vectors,
and `test_loss = mean(max(v, 0))` with `v` the pointwise reverse relative
difference `(control - test)/test` — not `mean(max(-u, 0))`. -/
theorem c6_bayes_losses_amended (betaStream : ℚ → ℚ → ℕ → ℚ)
    (n_resamples : ℕ) (lq rq : ℚ) (nobs counts prior : List ℚ)
    (two_sided : Bool) :
    okImplies (BayesBeta.resample betaStream n_resamples lq rq nobs counts prior)
      (fun s =>
        (BayesBeta.compute s two_sided).control_loss
            = npMean ((List.zipWith compute_uplift s.beta_control s.beta_test).map
                (fun u => max u 0)) ∧
        (BayesBeta.compute s two_sided).test_loss
            = npMean ((List.zipWith compute_uplift s.beta_test s.beta_control).map
                (fun u => max u 0))) := by
  unfold BayesBeta.resample
  split
  · simp
  · split
    · simp [okImplies, BayesBeta.compute, Except.bind]
    · split
      · simp [okImplies, BayesBeta.compute, Except.bind]
      · split
        · simp [Except.bind]
        · simp [okImplies, BayesBeta.compute, Except.bind]

/-- Claim C5: when the BCa bias correction `z0` is zero and the
acceleration is zero, and the normal CDF inverts the normal PPF at the two
nominal quantile levels (a property of the true `Φ`), the `bca` interval
returned by `bootstrap_ci` equals the `percentile` interval computed from
the same bootstrap replicates: the adjusted levels reduce to `alpha/2` and
`1 - alpha/2`. -/
theorem c5_bca_reduces_to_percentile (cdf ppf rt32 : ℚ → ℚ)
    (sample : List ℚ) (func : List ℚ → ℚ) (cl : ℚ) (draws : List (List ℕ))
    (hz0 : bcaZ0 ppf (bootstrapStats sample func draws) (func sample)
      draws.length = 0)
    (hacc : bcaAcc rt32 sample func = 0)
    (hl : cdf (ppf ((1 - cl) / 2)) = (1 - cl) / 2)
    (hu : cdf (ppf (1 - (1 - cl) / 2)) = 1 - (1 - cl) / 2) :
    bootstrap_ci cdf ppf rt32 sample func cl draws "bca"
      = bootstrap_ci cdf ppf rt32 sample func cl draws "percentile" := by
  have hb1 : ¬ (("bca" : String) = "percentile") := by decide
  have hb2 : ¬ (("bca" : String) = "pivotal") := by decide
  simp only [bootstrap_ci, if_neg hb1, if_neg hb2, if_pos rfl, hz0, hacc,
    zero_add, mul_zero, zero_mul, sub_zero, div_one, hl, hu, if_true]

/-- Concrete witness for claim C5. -/
theorem c5_bca_reduces_to_percentile_witness :
    bcaZ0 (fun x => x - 1/2) (bootstrapStats [0, 2] npMean [[0, 0], [1, 1]])
        (npMean [0, 2]) ([[0, 0], [1, 1]] : List (List ℕ)).length = 0 ∧
    bcaAcc id [0, 2] npMean = 0 ∧
    (fun x : ℚ => x + 1/2) ((fun x : ℚ => x - 1/2) ((1 - 19/20) / 2))
      = ((1 : ℚ) - 19/20) / 2 ∧
    (fun x : ℚ => x + 1/2) ((fun x : ℚ => x - 1/2) (1 - (1 - 19/20) / 2))
      = 1 - ((1 : ℚ) - 19/20) / 2 ∧
    bootstrap_ci (fun x => x + 1/2) (fun x => x - 1/2) id [0, 2] npMean (19/20)
        [[0, 0], [1, 1]] "bca"
      = bootstrap_ci (fun x => x + 1/2) (fun x => x - 1/2) id [0, 2] npMean (19/20)
        [[0, 0], [1, 1]] "percentile" := by
  have hz0 : bcaZ0 (fun x => x - 1/2)
      (bootstrapStats [0, 2] npMean [[0, 0], [1, 1]]) (npMean [0, 2])
      ([[0, 0], [1, 1]] : List (List ℕ)).length = 0 := by
    norm_num [bcaZ0, bootstrapStats, npMean, List.filter_cons, decide_eq_true_eq]
  have hacc : bcaAcc id [0, 2] npMean = 0 := by
    norm_num [bcaAcc, jackknifeStats, npMean, List.range_succ]
  have hl : (fun x => x + 1/2) ((fun x => x - 1/2) ((1 - 19/20) / 2))
      = ((1 : ℚ) - 19/20) / 2 := by norm_num
  have hu : (fun x => x + 1/2) ((fun x => x - 1/2) (1 - (1 - 19/20) / 2))
      = 1 - ((1 : ℚ) - 19/20) / 2 := by norm_num
  exact ⟨hz0, hacc, hl, hu,
    c5_bca_reduces_to_percentile (fun x => x + 1/2) (fun x => x - 1/2) id
      [0, 2] npMean (19/20) [[0, 0], [1, 1]] hz0 hacc hl hu⟩

/-- Claim C8: `QuantileBootstrap.resample` is deterministic in
(seed, inputs, q, n_resamples): two runs over the same binomial draw model
with the same `q`, resample count, integer seed and input samples produce
identical `resample_a` and `resample_b` arrays, even when the rest of the
session configuration (the confidence level and its quantile bounds)
differs between the two runs. -/
theorem c8_quantile_resample_determinism (binom : ℤ → ℕ → ℕ → ℚ → ℕ)
    (q : ℚ) (n : ℕ) (seed : ℤ) (cl₁ cl₂ lq₁ rq₁ lq₂ rq₂ : ℚ)
    (samples : List (List ℚ)) :
    Except.map (fun st => (st.resample_a, st.resample_b))
      (QuantileBootstrap.resample binom ⟨q, cl₁, lq₁, rq₁, n, seed⟩ samples)
    = Except.map (fun st => (st.resample_a, st.resample_b))
      (QuantileBootstrap.resample binom ⟨q, cl₂, lq₂, rq₂, n, seed⟩ samples) := by
  unfold QuantileBootstrap.resample
  by_cases h : samples.length ≠ 2
  · simp [h]
  · simp only [h, if_false]
    cases hA : indexInto ((samples.getD 0 []).insertionSort (· ≤ ·))
        ((List.range n).map
          (fun i => binom seed i (((samples.getD 0 []).insertionSort (· ≤ ·)).length + 1) q)) with
    | error e => simp [hA, Except.bind, Except.map]
    | ok ra =>
      cases hB : indexInto ((samples.getD 1 []).insertionSort (· ≤ ·))
          ((List.range n).map
            (fun i => binom seed (n + i) (((samples.getD 1 []).insertionSort (· ≤ ·)).length + 1) q)) with
      | error e => simp [hA, hB, Except.bind, Except.map]
      | ok rb => simp [hA, hB, Except.bind, Except.map]
